import Mathlib

/-!
Verification development for `src/quarterly_business_report_automation.py`.

The Python script is a linear ETL job: it pulls Opsgenie alerts, ServiceNow
tickets and PRTG sensors, maps them to Smartsheet rows, and rewrites
per-customer sheets.  The definitions below are shallow embeddings of the
functions of that script, translated directly from the source:

* Python strings that are only compared, lower-cased and substring-searched
  (the Opsgenie tags) are modelled as lists of code points (`List Nat`);
  strings that are concatenated into queries are modelled as Lean `String`s.
* Machine `datetime` values are modelled by a record of calendar fields plus
  an exact total-seconds count (mirroring CPython's proleptic-Gregorian
  ordinal arithmetic, which is exact integer arithmetic).
* Python floats appearing in the resolution-time computation are modelled as
  exact rationals (`ℚ`), with `round(x, 2)` modelled as round-half-to-even at
  two decimals.
* Network services are modelled as explicit function parameters from request
  parameters to responses, so every fetching function becomes a pure function
  of the service.
-/

namespace QBR

/-! ## Global constants (from the script's constant section) -/

def OPSGENIE_MAX_RESPONSE_LIMIT : Nat := 100

def SMARTSHEET_MAX_DASHBOARD_ROW_COUNT : Nat := 2500

def SMARTSHEET_MAX_ROW_DELETION : Nat := 100

/-! ## Opsgenie tag classification (`determine_primary_opsgenie_tag`)

Python strings are modelled as lists of Unicode code points.  `str.lower`
is modelled on the ASCII range (all tag constants in the source are ASCII).
-/

/-- A Python string, modelled as its list of code points. -/
abbrev PyStr := List Nat

/-- Encode a Lean string literal as a code-point list. -/
def enc (s : String) : PyStr := s.data.map Char.toNat

/-- Python `str.lower` on a single code point (ASCII case mapping). -/
def lowerCp (n : Nat) : Nat := if 65 ≤ n ∧ n ≤ 90 then n + 32 else n

/-- Python `str.lower` on a whole string. -/
def lowerStr (s : PyStr) : PyStr := s.map lowerCp

/-- Python's `sub in tag` contiguous-substring test. -/
def substrIn (sub : PyStr) : PyStr → Bool
  | [] => sub.isEmpty
  | c :: rest => sub.isPrefixOf (c :: rest) || substrIn sub rest

/-- The `if`/`elif` chain of `determine_primary_opsgenie_tag`, as an ordered
table of (substring, category) pairs; the chain checks the substrings in
exactly this order and stops at the first that occurs in the tag. -/
def TAG_PRIORITY : List (PyStr × String) :=
  [ (enc "hotline", "Hotline"), (enc "vcenters", "vCenter"),
    (enc "aps", "Access Point"), (enc "-ap", "Access Point"),
    (enc "hosts", "Host"),
    (enc "data protection advisor", "Data Protection Advisor"),
    (enc "ucs", "UCS"), (enc "probe device", "Probe Device"),
    (enc "snow", "ServiceNow"), (enc "contactcenter", "Contact Center"),
    (enc "virtualization", "Virtualization"), (enc "repl", "Replication"),
    (enc "storage", "Storage"), (enc "-fabric", "Storage"),
    (enc "bkup", "Backup"), (enc "network", "Network"),
    (enc "-sw", "Network"), (enc "fw", "Network"),
    (enc "server", "Server"), (enc "hardware", "Hardware") ]

/-- One iteration body of the tag loop: the first entry of the priority
chain whose substring occurs in `tag`, if any. -/
def matchTag (tag : PyStr) : Option String :=
  (TAG_PRIORITY.find? (fun p => substrIn p.1 tag)).map (fun p => p.2)

/-- The `for tag in opsgenie_tags_lowercase` loop with its `break`s: the
category of the first tag that matches any priority substring. -/
def scanTags : List PyStr → Option String
  | [] => none
  | tag :: rest =>
    match matchTag tag with
    | some category => some category
    | none => scanTags rest

/-- The function `determine_primary_opsgenie_tag`: lower-case all tags, default the
result to `"Catch-all"` when some tag equals `"catchall"`, let the scan loop
overwrite the result at its first substring match, and fall back to
`"Misc."` when the result is still empty. -/
def determine_primary_opsgenie_tag (opsgenie_tags : List PyStr) : String :=
  let opsgenie_tags_lowercase := opsgenie_tags.map lowerStr
  let primary_tag0 : String := ""
  let primary_tag1 :=
    if opsgenie_tags_lowercase.contains (enc "catchall") then "Catch-all"
    else primary_tag0
  let primary_tag2 :=
    match scanTags opsgenie_tags_lowercase with
    | some category => category
    | none => primary_tag1
  if primary_tag2 = "" then "Misc." else primary_tag2

/-! ## Opsgenie alert pagination (`paginate_opsgenie_alerts`,
`get_quarterly_opsgenie_alerts`)

The alert service is modelled as a function from the request offset to the
response page (each request's `limit` is a fixed function of its offset, so
the offset determines the request).  Alerts are modelled as opaque `Nat`
identifiers.

`paginate_opsgenie_alerts` is a Python *generator* (its body contains
`yield`).  Its embedding returns the list of pages the generator yields to a
`for` loop.  In CPython, a `return expr` inside a generator raises
`StopIteration(expr)`: the value is not yielded, and a `for` loop iterating
the generator never sees it.  The early-exit branch
`return list_alerts_response.data` therefore contributes no page, which the
embedding reflects by producing `[]` in that branch. -/

/-- One page of an Opsgenie `list_alerts` response: the alert data and
whether `paging.next` is present. -/
structure OpsgeniePage where
  data : List Nat
  hasNext : Bool
deriving DecidableEq

/-- The `limit` argument sent for the request at a given offset: a full page
when it fits inside the row cap, otherwise the remaining budget.  (The first
request, at offset `0`, uses
`OPSGENIE_MAX_RESPONSE_LIMIT if OPSGENIE_MAX_RESPONSE_LIMIT <=
SMARTSHEET_MAX_DASHBOARD_ROW_COUNT else SMARTSHEET_MAX_DASHBOARD_ROW_COUNT`,
which coincides with this formula at `0`.) -/
def opsgenieRequestLimit (offset : Nat) : Nat :=
  if offset + OPSGENIE_MAX_RESPONSE_LIMIT ≤ SMARTSHEET_MAX_DASHBOARD_ROW_COUNT
  then OPSGENIE_MAX_RESPONSE_LIMIT
  else SMARTSHEET_MAX_DASHBOARD_ROW_COUNT - offset

/-- The `while` loop of `paginate_opsgenie_alerts`: while the latest
response has a next page and the offset is below the row cap, fetch the page
at the current offset, yield its data, and advance the offset by the page
size. -/
def paginateLoop (service : Nat → OpsgeniePage) (offset : Nat) (hasNext : Bool) :
    List (List Nat) :=
  if _h : hasNext = true ∧ offset < SMARTSHEET_MAX_DASHBOARD_ROW_COUNT then
    let r := service offset
    r.data :: paginateLoop service (offset + OPSGENIE_MAX_RESPONSE_LIMIT) r.hasNext
  else
    []
termination_by SMARTSHEET_MAX_DASHBOARD_ROW_COUNT - offset
decreasing_by
  simp only [SMARTSHEET_MAX_DASHBOARD_ROW_COUNT, OPSGENIE_MAX_RESPONSE_LIMIT] at *
  omega

/-- The generator `paginate_opsgenie_alerts`: the list of pages the generator yields.
When the first page has no next page (or already fills the row cap) the
generator executes `return list_alerts_response.data`, which — per CPython
generator semantics — yields nothing, so no page reaches the caller. -/
def paginate_opsgenie_alerts (service : Nat → OpsgeniePage) : List (List Nat) :=
  let r0 := service 0
  if r0.hasNext = false ∨ r0.data.length = SMARTSHEET_MAX_DASHBOARD_ROW_COUNT then
    []
  else
    r0.data :: paginateLoop service (0 + OPSGENIE_MAX_RESPONSE_LIMIT) r0.hasNext

/-- The function `get_quarterly_opsgenie_alerts`: iterate the generator's pages and
append every alert of every yielded page. -/
def get_quarterly_opsgenie_alerts (service : Nat → OpsgeniePage) : List Nat :=
  (paginate_opsgenie_alerts service).flatten

/-- A service whose response fits in a single page: one alert, no next
page. -/
def singlePageOpsgenieService : Nat → OpsgeniePage := fun _ => ⟨[7], false⟩

/-- A service returning empty pages that always claim a next page; it
trivially honours every requested limit. -/
def emptyPagesOpsgenieService : Nat → OpsgeniePage := fun _ => ⟨[], true⟩

/-! ## ServiceNow tickets (`ServiceNowTicket.__init__`,
`servicenow_ticket_to_row`)

`datetime.strptime(s, "%Y-%m-%d %I:%M:%S %p")` is modelled by an explicit
parser of that fixed format, and `datetime` values by their calendar fields;
`timedelta.total_seconds()` is modelled through CPython's exact
proleptic-Gregorian ordinal arithmetic.  The float divisions
`/ 60 / 60 / 24` and `round(x, 2)` are modelled over exact rationals, with
`round` as round-half-to-even at two decimals.  The resolution cell holds
`str(abs(round(rt, 2)))` or the empty string; it is modelled as `Option ℚ`
(`none` for the empty string, the exact numeric value otherwise). -/

/-- A parsed ServiceNow timestamp. -/
structure SnDateTime where
  year : Nat
  month : Nat
  day : Nat
  hour : Nat
  minute : Nat
  second : Nat
deriving DecidableEq

/-- Split a character list on a separator (like `str.split(sep)` for a
one-character separator). -/
def splitOnCp (sep : Char) : List Char → List (List Char)
  | [] => [[]]
  | c :: rest =>
    match splitOnCp sep rest with
    | [] => [[]]
    | grp :: grps => if c = sep then [] :: grp :: grps else (c :: grp) :: grps

/-- ASCII decimal digit test. -/
def isDigitCp (c : Char) : Bool := 48 ≤ c.toNat && c.toNat ≤ 57

/-- The numeric value of a nonempty all-digit character group. -/
def decValue? (l : List Char) : Option Nat :=
  if !l.isEmpty && l.all isDigitCp then
    some (l.foldl (fun a c => a * 10 + (c.toNat - 48)) 0)
  else none

/-- Gregorian leap-year test (as in CPython's `datetime` module). -/
def isLeapYear (y : Nat) : Bool := y % 4 == 0 && (y % 100 != 0 || y % 400 == 0)

/-- Days in a month of a given year (CPython's `_days_in_month`). -/
def daysInMonth (y m : Nat) : Nat :=
  if m = 2 then (if isLeapYear y then 29 else 28)
  else if m = 4 ∨ m = 6 ∨ m = 9 ∨ m = 11 then 30
  else 31

/-- Python `datetime.strptime(s, "%Y-%m-%d %I:%M:%S %p")`: parse the fixed
ServiceNow timestamp format, converting the 12-hour clock and AM/PM marker
to a 24-hour clock, and rejecting fields outside the real calendar ranges
(as the `datetime` constructor does). -/
def parseSnDatetimeChars (s : List Char) : Option SnDateTime :=
  match splitOnCp ' ' s with
  | [datePart, timePart, ampm] =>
    match splitOnCp '-' datePart, splitOnCp ':' timePart with
    | [ys, ms, ds], [hs, mins, secs] => do
      let y ← decValue? ys
      let m ← decValue? ms
      let d ← decValue? ds
      let h12 ← decValue? hs
      let mi ← decValue? mins
      let se ← decValue? secs
      let h24 ←
        match ampm with
        | ['A', 'M'] => some (if h12 = 12 then 0 else h12)
        | ['P', 'M'] => some (if h12 = 12 then 12 else h12 + 12)
        | _ => none
      if 1 ≤ m ∧ m ≤ 12 ∧ 1 ≤ d ∧ d ≤ daysInMonth y m ∧ 1 ≤ h12 ∧ h12 ≤ 12 ∧
          mi ≤ 59 ∧ se ≤ 59 then
        some ⟨y, m, d, h24, mi, se⟩
      else
        none
    | _, _ => none
  | _ => none

/-- Parse a string with the fixed ServiceNow `strptime` format. -/
def parseSnDatetime (s : String) : Option SnDateTime := parseSnDatetimeChars s.data

/-- Cumulative days before each month in a non-leap year (CPython's
`_DAYS_BEFORE_MONTH`). -/
def DAYS_BEFORE_MONTH : List Nat := [0, 31, 59, 90, 120, 151, 181, 212, 243, 273, 304, 334]

/-- Days in the years `[1, year)` (CPython's `_days_before_year`). -/
def daysBeforeYear (year : Nat) : Nat :=
  365 * (year - 1) + (year - 1) / 4 - (year - 1) / 100 + (year - 1) / 400

/-- The proleptic-Gregorian ordinal of a date (CPython's
`datetime.toordinal`). -/
def toOrdinal (dt : SnDateTime) : Nat :=
  daysBeforeYear dt.year + DAYS_BEFORE_MONTH.getD (dt.month - 1) 0 +
    (if 2 < dt.month ∧ isLeapYear dt.year = true then 1 else 0) + dt.day

/-- A timestamp's exact second count (ordinal days plus the time fields). -/
def snTotalSeconds (dt : SnDateTime) : Nat :=
  toOrdinal dt * 86400 + dt.hour * 3600 + dt.minute * 60 + dt.second

/-- The value `(closed_at - opened_at).total_seconds() / 60 / 60 / 24`, exactly. -/
def resolveTimeDays (opened closed : SnDateTime) : ℚ :=
  (((snTotalSeconds closed : ℤ) - (snTotalSeconds opened : ℤ) : ℤ) : ℚ) / 60 / 60 / 24

/-- Python's banker's rounding of a rational to an integer. -/
def roundHalfEven (q : ℚ) : ℤ :=
  if q - ⌊q⌋ < 1 / 2 then ⌊q⌋
  else if 1 / 2 < q - ⌊q⌋ then ⌊q⌋ + 1
  else if ⌊q⌋ % 2 = 0 then ⌊q⌋ else ⌊q⌋ + 1

/-- Python's `round(q, 2)`. -/
def pyRound2 (q : ℚ) : ℚ := (roundHalfEven (q * 100) : ℚ) / 100

/-- A ServiceNow ticket after `ServiceNowTicket.__init__`: `category` and
`risk` null-coalesced to the empty string, `opened_at` parsed, `closed_at`
parsed or absent, `resolve_time` the exact day difference (absent when the
ticket is not closed). -/
structure ServiceNowTicket where
  number : String
  location : String
  cmdb_ci : String
  short_description : String
  state : String
  category : String
  priority : String
  risk : String
  assigned_to : String
  opened_at : SnDateTime
  updated_by : String
  closed_at : Option SnDateTime
  resolve_time : Option ℚ
deriving DecidableEq

/-- Constructor `ServiceNowTicket.__init__`.  Its `strptime` raising on a malformed
timestamp is modelled by returning `none`. -/
def mkServiceNowTicket (number location cmdb_ci short_description state : String)
    (category : Option String) (priority : String) (risk : Option String)
    (assigned_to opened_at updated_by closed_at : String) :
    Option ServiceNowTicket := do
  let openedDt ← parseSnDatetime opened_at
  let closedDt ←
    if closed_at = "" then some none
    else do
      let c ← parseSnDatetime closed_at
      some (some c)
  some { number := number, location := location, cmdb_ci := cmdb_ci,
         short_description := short_description, state := state,
         category := category.getD "", priority := priority,
         risk := risk.getD "", assigned_to := assigned_to,
         opened_at := openedDt, updated_by := updated_by,
         closed_at := closedDt,
         resolve_time := closedDt.map (fun c => resolveTimeDays openedDt c) }

/-- The resolution-days cell written by `servicenow_ticket_to_row`:
`str(abs(round(ticket_data.resolve_time, 2)))` when `resolve_time` is
present, the empty string (modelled `none`) otherwise. -/
def resolutionCellValue (t : ServiceNowTicket) : Option ℚ :=
  t.resolve_time.map (fun rt => |pyRound2 rt|)

/-- The parsed opened timestamp of the specification's example ticket. -/
def c3ExampleOpened : SnDateTime := ⟨2024, 1, 1, 9, 0, 0⟩

/-- The parsed closed timestamp of the specification's example ticket. -/
def c3ExampleClosed : SnDateTime := ⟨2024, 1, 3, 9, 0, 0⟩

/-- The specification's example ticket after `__init__`. -/
def c3ExampleTicket : ServiceNowTicket :=
  { number := "INC0001", location := "HQ", cmdb_ci := "srv01",
    short_description := "d", state := "Closed", category := "",
    priority := "3", risk := "", assigned_to := "a",
    opened_at := c3ExampleOpened, updated_by := "b",
    closed_at := some c3ExampleClosed,
    resolve_time := some (resolveTimeDays c3ExampleOpened c3ExampleClosed) }

/-! ## `get_quarterly_servicenow_tickets` -/

/-- A raw record returned by a ServiceNow table query, projected to
`SERVICENOW_TICKET_FIELDS` (`category` and `risk` are read with
`.get(..., None)`, so they may be absent). -/
structure RawServiceNowTicket where
  number : String
  location : String
  cmdb_ci : String
  short_description : String
  state : String
  category : Option String
  priority : String
  risk : Option String
  assigned_to : String
  opened_at : String
  sys_updated_by : String
  closed_at : String
deriving DecidableEq

/-- The `ServiceNowTicket(...)` constructor call of the conversion loop in
`get_quarterly_servicenow_tickets`. -/
def mkTicketFromRaw (r : RawServiceNowTicket) : Option ServiceNowTicket :=
  mkServiceNowTicket r.number r.location r.cmdb_ci r.short_description r.state
    r.category r.priority r.risk r.assigned_to r.opened_at r.sys_updated_by
    r.closed_at

/-- The sort key `lambda ticket: ticket.opened_at`: Python `datetime`s
compare chronologically, i.e. by their exact second count (the parser only
produces real calendar field values, on which the second count is ordered
exactly like the field tuples). -/
def openedLe (a b : ServiceNowTicket) : Bool :=
  snTotalSeconds a.opened_at ≤ snTotalSeconds b.opened_at

/-- The function `get_quarterly_servicenow_tickets`, from the point where the three
table responses are in hand: concatenate the incident, request-item and
change-request records, parse each into a typed ticket (a `strptime`
failure raises, modelled as `none`), sort ascending by opened timestamp
with Python's stable `sorted` (= stable merge sort), reverse, and truncate
to the row cap when the list is longer. -/
def get_quarterly_servicenow_tickets
    (incidents request_items change_requests : List RawServiceNowTicket) :
    Option (List ServiceNowTicket) := do
  let all_raw := incidents ++ request_items ++ change_requests
  let tickets ← all_raw.mapM mkTicketFromRaw
  let sorted := (tickets.mergeSort openedLe).reverse
  if sorted.length > SMARTSHEET_MAX_DASHBOARD_ROW_COUNT then
    some (sorted.take SMARTSHEET_MAX_DASHBOARD_ROW_COUNT)
  else
    some sorted

/-- The raw record of the C4 witness. -/
def c4RawTicket : RawServiceNowTicket :=
  { number := "INC1", location := "HQ", cmdb_ci := "srv",
    short_description := "d", state := "New", category := none,
    priority := "3", risk := none, assigned_to := "a",
    opened_at := "2024-01-01 09:00:00 AM", sys_updated_by := "b",
    closed_at := "" }

/-- The parsed ticket of the C4 witness. -/
def c4Ticket : ServiceNowTicket :=
  { number := "INC1", location := "HQ", cmdb_ci := "srv",
    short_description := "d", state := "New", category := "",
    priority := "3", risk := "", assigned_to := "a",
    opened_at := ⟨2024, 1, 1, 9, 0, 0⟩, updated_by := "b",
    closed_at := none, resolve_time := none }

/-! ## Smartsheet row deletion (`clear_smartsheet`,
`delete_smartsheet_rows`)

Row ids are `Nat`s; the Smartsheet delete endpoint is not called for real,
so the functions are modelled by the sequence of delete calls (and error
logs) they issue. -/

/-- The slices `all_row_ids[chunk_offset : chunk_offset + 100]` for
`chunk_offset in range(0, len(all_row_ids), 100)`. -/
def rowIdChunks (ids : List Nat) : List (List Nat) :=
  if ids = [] then []
  else ids.take SMARTSHEET_MAX_ROW_DELETION ::
    rowIdChunks (ids.drop SMARTSHEET_MAX_ROW_DELETION)
termination_by ids.length
decreasing_by
  simp only [SMARTSHEET_MAX_ROW_DELETION, List.length_drop]
  have : ids.length ≠ 0 := fun h => by
    simp [List.length_eq_zero.mp h] at *
  omega

/-- The function `clear_smartsheet`, modelled by the list of delete calls it issues: no
call when the sheet is already empty, otherwise one call per row-id chunk.
(`delete_smartsheet_rows` issues exactly the same calls for a given row-id
list.) -/
def clear_smartsheet (rowIds : List Nat) : List (List Nat) :=
  if rowIds.length = 0 then [] else rowIdChunks rowIds

/-- The function `delete_smartsheet_rows`, modelled the same way (its body differs from
`clear_smartsheet` only in logging and in reading the ids off row objects). -/
def delete_smartsheet_rows (rowIds : List Nat) : List (List Nat) :=
  if rowIds.length = 0 then [] else rowIdChunks rowIds

/-- An observable action of the chunked-delete loop. -/
inductive SheetEvent where
  | deleteCall (chunk : List Nat)
  | errorLog (chunk : List Nat)
deriving DecidableEq

/-- The chunk loop of `clear_smartsheet` with the per-call results made
explicit: each chunk's delete call is issued, a non-SUCCESS result is
logged, and the loop `continue`s to the next chunk either way (the failed
call is never re-issued). -/
def clearChunkLoop (callResult : List Nat → Bool) : List (List Nat) → List SheetEvent
  | [] => []
  | chunk :: rest =>
    if callResult chunk then
      SheetEvent.deleteCall chunk :: clearChunkLoop callResult rest
    else
      SheetEvent.deleteCall chunk :: SheetEvent.errorLog chunk ::
        clearChunkLoop callResult rest

/-- The function `clear_smartsheet` as an event trace: nothing on an empty sheet,
otherwise the chunk loop over the row-id chunks. -/
def clearSmartsheetEvents (rowIds : List Nat) (callResult : List Nat → Bool) :
    List SheetEvent :=
  if rowIds.length = 0 then [] else clearChunkLoop callResult (rowIdChunks rowIds)

/-- The chunk of a delete-call event. -/
def deleteCallChunk : SheetEvent → Option (List Nat)
  | SheetEvent.deleteCall chunk => some chunk
  | SheetEvent.errorLog _ => none

/-- The chunk sizes of `rowIdChunks` as a function of the input length. -/
def chunkLengths (n : Nat) : List Nat :=
  if n = 0 then []
  else min SMARTSHEET_MAX_ROW_DELETION n :: chunkLengths (n - SMARTSHEET_MAX_ROW_DELETION)
termination_by n
decreasing_by
  simp only [SMARTSHEET_MAX_ROW_DELETION]
  omega

/-! ## PRTG sensor fetching (`get_alerting_prtg_sensors`)

Sensors are opaque `Nat`s; the HTTP service is a function from the built
request to the sensor list it returns.  The two shared default
endpoint/key pairs come from the environment and are modelled as an
explicit environment record. -/

def PRTG_01_USE_DEFAULTS_KEYWORD : String := "prtg_01_default_instance"

def PRTG_02_USE_DEFAULTS_KEYWORD : String := "prtg_02_default_instance"

/-- One entry of a customer's `prtg_instances` configuration list. -/
structure PrtgInstance where
  url : String
  api_key : String
  probe_substrings : List String
deriving DecidableEq

/-- The environment-provided shared default PRTG endpoints and keys. -/
structure PrtgEnv where
  prtg01Url : String
  prtg01ApiKey : String
  prtg02Url : String
  prtg02ApiKey : String
deriving DecidableEq

/-- The endpoint/key resolution at the top of the fetch loop of
`get_alerting_prtg_sensors`: the first sentinel keyword selects the first
shared default endpoint/key pair, the second sentinel the second pair, and
any other url is used literally with the instance's own api key. -/
def resolvePrtgInstance (env : PrtgEnv) (inst : PrtgInstance) : String × String :=
  if inst.url = PRTG_01_USE_DEFAULTS_KEYWORD then
    (env.prtg01Url ++ "/api/table.xml", env.prtg01ApiKey)
  else if inst.url = PRTG_02_USE_DEFAULTS_KEYWORD then
    (env.prtg02Url ++ "/api/table.xml", env.prtg02ApiKey)
  else
    (inst.url ++ "/api/table.xml", inst.api_key)

/-- The request issued for one instance: the resolved endpoint and api
token plus the probe substring filters (attached only when the filter list
is non-empty; the fixed `content`/`columns`/`filter_status`/`output`/
`count` parameters are constants and are omitted from the model). -/
structure PrtgQuery where
  url : String
  apitoken : String
  filter_probe : List String
deriving DecidableEq

/-- Build the request parameters for one instance. -/
def buildPrtgQuery (env : PrtgEnv) (inst : PrtgInstance) : PrtgQuery :=
  let resolved := resolvePrtgInstance env inst
  { url := resolved.1, apitoken := resolved.2,
    filter_probe :=
      if inst.probe_substrings.length ≠ 0 then
        inst.probe_substrings.map (fun s => "@sub(" ++ s ++ ")")
      else [] }

/-- The fetch loop of `get_alerting_prtg_sensors`, as the ordered list of
requests it issues (one per instance, each resolved from that instance's
own fields). -/
def prtgQueriesIssued (env : PrtgEnv) : List PrtgInstance → List PrtgQuery
  | [] => []
  | inst :: rest => buildPrtgQuery env inst :: prtgQueriesIssued env rest

/-- The fetch loop's accumulated sensor list. -/
def prtgCollect (env : PrtgEnv) (service : PrtgQuery → List Nat) :
    List PrtgInstance → List Nat
  | [] => []
  | inst :: rest => service (buildPrtgQuery env inst) ++ prtgCollect env service rest

/-- The function `get_alerting_prtg_sensors`: accumulate all instances' sensors, then
truncate to the row cap when longer. -/
def get_alerting_prtg_sensors (env : PrtgEnv) (service : PrtgQuery → List Nat)
    (instances : List PrtgInstance) : List Nat :=
  let all := prtgCollect env service instances
  if all.length > SMARTSHEET_MAX_DASHBOARD_ROW_COUNT then
    all.take SMARTSHEET_MAX_DASHBOARD_ROW_COUNT
  else
    all

/-! ## Opsgenie query building (`get_quarterly_opsgenie_alerts`) -/

/-- A calendar date (the `datetime.today() - timedelta(days=90)` cutoff). -/
structure SimpleDate where
  day : Nat
  month : Nat
  year : Nat
deriving DecidableEq

/-- Format a `strftime` zero-padded two-digit field (`%d`, `%m`). -/
def pad2 (n : Nat) : String := if n < 10 then "0" ++ toString n else toString n

/-- Format a `strftime` zero-padded four-digit year (`%Y`). -/
def pad4 (n : Nat) : String :=
  if n < 10 then "000" ++ toString n
  else if n < 100 then "00" ++ toString n
  else if n < 1000 then "0" ++ toString n
  else toString n

/-- Python `date.strftime("%d-%m-%Y")`. -/
def strftimeDDMMYYYY (d : SimpleDate) : String :=
  pad2 d.day ++ "-" ++ pad2 d.month ++ "-" ++ pad4 d.year

/-- Python's `sep.join(strings)`. -/
def pyJoin (sep : String) : List String → String
  | [] => ""
  | [s] => s
  | s :: rest => s ++ sep ++ pyJoin sep rest

/-- The Opsgenie query f-string of `get_quarterly_opsgenie_alerts`:
`createdAt >= {cutoff:%d-%m-%Y} tag: ("t1" OR "t2" ...)`, built by joining
the raw tags with `'" OR "'` inside one pair of quotes. -/
def buildOpsgenieQuery (cutoff : SimpleDate) (tags : List String) : String :=
  "createdAt >= " ++ strftimeDDMMYYYY cutoff ++ " tag: (\"" ++
    pyJoin "\" OR \"" tags ++ "\")"

/-- A tag enclosed in double quotes (the specification's wording). -/
def quoteTag (t : String) : String := "\"" ++ t ++ "\""

/-- First C8 example instance: carries the first sentinel. -/
def c8Inst1 : PrtgInstance :=
  { url := PRTG_01_USE_DEFAULTS_KEYWORD, api_key := "ignored1", probe_substrings := [] }

/-- Second C8 example instance: carries the second sentinel. -/
def c8Inst2 : PrtgInstance :=
  { url := PRTG_02_USE_DEFAULTS_KEYWORD, api_key := "ignored2", probe_substrings := [] }

/-- The C8 example environment. -/
def c8Env : PrtgEnv :=
  { prtg01Url := "https://prtg01", prtg01ApiKey := "key1",
    prtg02Url := "https://prtg02", prtg02ApiKey := "key2" }

/-! ## Theorems -/

/-- C2 (counter-evidence): when the alert service's response fits in a
single page (here: one alert, `paging.next = None`), the generator executes
`return list_alerts_response.data`, so the page is never yielded and
`get_quarterly_opsgenie_alerts` returns the empty list — the first page's
alerts are NOT included, contradicting the claim (and the function's own
docstring, which promises the alert list). -/
theorem C2_single_page_alerts_lost :
    (singlePageOpsgenieService 0).data = [7] ∧
    (singlePageOpsgenieService 0).hasNext = false ∧
    get_quarterly_opsgenie_alerts singlePageOpsgenieService = [] := by
  refine ⟨rfl, rfl, ?_⟩
  rfl

/-- The total number of alerts the pagination loop yields from a given
offset is at most the remaining budget, provided every response honours the
requested limit. -/
theorem paginateLoop_flatten_le (service : Nat → OpsgeniePage)
    (h : ∀ off, (service off).data.length ≤ opsgenieRequestLimit off) :
    ∀ fuel offset hasNext, SMARTSHEET_MAX_DASHBOARD_ROW_COUNT - offset ≤ fuel →
      (paginateLoop service offset hasNext).flatten.length ≤
        SMARTSHEET_MAX_DASHBOARD_ROW_COUNT - offset := by
  intro fuel
  induction fuel with
  | zero =>
    intro offset hasNext hle
    rw [paginateLoop]
    split
    · next hc =>
      exfalso
      simp only [SMARTSHEET_MAX_DASHBOARD_ROW_COUNT] at *
      omega
    · simp
  | succ n ih =>
    intro offset hasNext hle
    rw [paginateLoop]
    split
    · next hc =>
      have hlim := h offset
      have hrec := ih (offset + OPSGENIE_MAX_RESPONSE_LIMIT) (service offset).hasNext
        (by
          simp only [SMARTSHEET_MAX_DASHBOARD_ROW_COUNT, OPSGENIE_MAX_RESPONSE_LIMIT] at *
          omega)
      simp only [List.flatten_cons, List.length_append]
      simp only [opsgenieRequestLimit, SMARTSHEET_MAX_DASHBOARD_ROW_COUNT,
        OPSGENIE_MAX_RESPONSE_LIMIT] at hlim hrec hc ⊢
      split at hlim <;> omega
    · simp

/-- C5: assuming every alert-service response is no longer than the
requested limit, the pagination generator never yields more than
`SMARTSHEET_MAX_DASHBOARD_ROW_COUNT` alerts in total, and the limit
requested at any offset for which a full page would overflow the cap is
exactly the remaining budget (cap minus offset). -/
theorem C5_pagination_cap (service : Nat → OpsgeniePage)
    (h : ∀ off, (service off).data.length ≤ opsgenieRequestLimit off) :
    (paginate_opsgenie_alerts service).flatten.length ≤
      SMARTSHEET_MAX_DASHBOARD_ROW_COUNT ∧
    (∀ off, SMARTSHEET_MAX_DASHBOARD_ROW_COUNT < off + OPSGENIE_MAX_RESPONSE_LIMIT →
      opsgenieRequestLimit off = SMARTSHEET_MAX_DASHBOARD_ROW_COUNT - off) := by
  constructor
  · simp only [paginate_opsgenie_alerts]
    split
    · simp
    · have hrec := paginateLoop_flatten_le service h
        (SMARTSHEET_MAX_DASHBOARD_ROW_COUNT - (0 + OPSGENIE_MAX_RESPONSE_LIMIT))
        (0 + OPSGENIE_MAX_RESPONSE_LIMIT) (service 0).hasNext le_rfl
      have hlim := h 0
      simp only [List.flatten_cons, List.length_append]
      simp only [opsgenieRequestLimit, SMARTSHEET_MAX_DASHBOARD_ROW_COUNT,
        OPSGENIE_MAX_RESPONSE_LIMIT] at hlim hrec ⊢
      split at hlim <;> omega
  · intro off hoff
    simp only [opsgenieRequestLimit, SMARTSHEET_MAX_DASHBOARD_ROW_COUNT,
      OPSGENIE_MAX_RESPONSE_LIMIT] at hoff ⊢
    split <;> omega

/-- Witness for C5 at a concrete service. -/
theorem C5_pagination_cap_witness :
    (paginate_opsgenie_alerts emptyPagesOpsgenieService).flatten.length ≤
      SMARTSHEET_MAX_DASHBOARD_ROW_COUNT :=
  (C5_pagination_cap emptyPagesOpsgenieService (fun _ => Nat.zero_le _)).1

/-- Banker's rounding maps integers to themselves. -/
theorem roundHalfEven_intCast (n : ℤ) : roundHalfEven (n : ℚ) = n := by
  unfold roundHalfEven
  rw [Int.floor_intCast]
  norm_num

/-- Banker's rounding is an odd function. -/
theorem roundHalfEven_neg (q : ℚ) : roundHalfEven (-q) = -roundHalfEven q := by
  by_cases hq : ((⌊q⌋ : ℚ) = q)
  · obtain ⟨n, rfl⟩ : ∃ n : ℤ, q = (n : ℚ) := ⟨⌊q⌋, hq.symm⟩
    rw [show (-(n : ℚ)) = ((-n : ℤ) : ℚ) by push_cast; ring]
    rw [roundHalfEven_intCast, roundHalfEven_intCast]
  · have hlt : (⌊q⌋ : ℚ) < q := lt_of_le_of_ne (Int.floor_le q) hq
    have hup : q < ⌊q⌋ + 1 := Int.lt_floor_add_one q
    have hfneg : ⌊-q⌋ = -⌊q⌋ - 1 := by
      rw [Int.floor_eq_iff]
      constructor
      · push_cast
        linarith
      · push_cast
        linarith
    unfold roundHalfEven
    rw [hfneg]
    push_cast
    split_ifs <;> first | omega | (exfalso; linarith)

/-- Banker's rounding preserves nonnegativity. -/
theorem roundHalfEven_nonneg {q : ℚ} (h : 0 ≤ q) : 0 ≤ roundHalfEven q := by
  have hf : (0 : ℤ) ≤ ⌊q⌋ := Int.floor_nonneg.mpr h
  unfold roundHalfEven
  split_ifs <;> omega

/-- Rounding `round(·, 2)` is an odd function. -/
theorem pyRound2_neg (q : ℚ) : pyRound2 (-q) = -pyRound2 q := by
  unfold pyRound2
  rw [show (-q * 100) = -(q * 100) by ring, roundHalfEven_neg]
  push_cast
  ring

/-- Rounding `round(·, 2)` preserves nonnegativity. -/
theorem pyRound2_nonneg {q : ℚ} (h : 0 ≤ q) : 0 ≤ pyRound2 q := by
  unfold pyRound2
  have := roundHalfEven_nonneg (q := q * 100) (by positivity)
  positivity

/-- Fact: `abs(round(x, 2)) = round(abs(x), 2)` -- the code applies `abs` after
rounding, the claim before; the two agree. -/
theorem abs_pyRound2 (q : ℚ) : |pyRound2 q| = pyRound2 |q| := by
  rcases le_or_lt 0 q with h | h
  · rw [abs_of_nonneg h, abs_of_nonneg (pyRound2_nonneg h)]
  · have h' : 0 ≤ -q := by linarith
    have h0 : 0 ≤ pyRound2 (-q) := pyRound2_nonneg h'
    rw [pyRound2_neg] at h0
    rw [abs_of_neg h, pyRound2_neg, abs_of_nonpos (by linarith)]

/-- C3: when a ticket parses, the resolution-days cell of
`servicenow_ticket_to_row` is the absolute value of (closed − opened) in
fractional days rounded to 2 decimals whenever the closed timestamp is
present, and the empty cell (`none`, never zero) when `closed_at` is the
empty string. -/
theorem C3_resolution_cell
    (number location cmdb_ci short_description state : String)
    (category : Option String) (priority : String) (risk : Option String)
    (assigned_to opened_at_str updated_by closed_at_str : String)
    (t : ServiceNowTicket)
    (ht : mkServiceNowTicket number location cmdb_ci short_description state
      category priority risk assigned_to opened_at_str updated_by closed_at_str = some t) :
    (closed_at_str = "" → resolutionCellValue t = none) ∧
    (∀ o c, parseSnDatetime opened_at_str = some o →
      parseSnDatetime closed_at_str = some c →
      resolutionCellValue t = some (pyRound2 |resolveTimeDays o c|)) := by
  cases hpo : parseSnDatetime opened_at_str with
  | none => simp [mkServiceNowTicket, hpo] at ht
  | some o =>
    by_cases hce : closed_at_str = ""
    · constructor
      · intro _
        simp [mkServiceNowTicket, hpo, hce] at ht
        subst ht
        simp [resolutionCellValue]
      · intro o' c hpo' hpc
        rw [hce] at hpc
        rw [show parseSnDatetime "" = none from rfl] at hpc
        cases hpc
    · constructor
      · intro h
        exact absurd h hce
      · intro o' c hpo' hpc
        injection hpo' with ho
        subst ho
        simp [mkServiceNowTicket, hpo, hce, hpc] at ht
        subst ht
        simp [resolutionCellValue, abs_pyRound2]

/-- Witness for C3: opened `2024-01-01 09:00:00 AM`, closed
`2024-01-03 09:00:00 AM` yield a resolution cell of exactly 2.0 days. -/
theorem C3_resolution_cell_witness :
    resolutionCellValue c3ExampleTicket = some 2 := by
  have h := (C3_resolution_cell "INC0001" "HQ" "srv01" "d" "Closed" none "3" none "a"
    "2024-01-01 09:00:00 AM" "b" "2024-01-03 09:00:00 AM" c3ExampleTicket rfl).2
    c3ExampleOpened c3ExampleClosed (by decide) (by decide)
  rw [h]
  norm_num [resolveTimeDays, snTotalSeconds, toOrdinal, daysBeforeYear,
    DAYS_BEFORE_MONTH, isLeapYear, pyRound2, roundHalfEven, c3ExampleOpened,
    c3ExampleClosed]

/-- Relation `openedLe` is transitive. -/
theorem openedLe_trans (a b c : ServiceNowTicket) :
    openedLe a b → openedLe b c → openedLe a c := by
  simp only [openedLe, decide_eq_true_eq]
  omega

/-- Relation `openedLe` is total. -/
theorem openedLe_total (a b : ServiceNowTicket) :
    openedLe a b || openedLe b a := by
  simp only [openedLe, Bool.or_eq_true, decide_eq_true_eq]
  omega

/-- C4: `get_quarterly_servicenow_tickets` returns the parsed tickets of
the three concatenated tables sorted descending by opened timestamp; it
returns exactly the row cap of 2500 tickets when 3000 parse, and a
permutation of all parsed tickets when at most 2500 parse. -/
theorem C4_ticket_truncation
    (incidents request_items change_requests : List RawServiceNowTicket)
    (tickets result : List ServiceNowTicket)
    (hparse : (incidents ++ request_items ++ change_requests).mapM mkTicketFromRaw
      = some tickets)
    (hrun : get_quarterly_servicenow_tickets incidents request_items change_requests
      = some result) :
    result.Pairwise
      (fun a b => snTotalSeconds b.opened_at ≤ snTotalSeconds a.opened_at) ∧
    result.length = min tickets.length SMARTSHEET_MAX_DASHBOARD_ROW_COUNT ∧
    (tickets.length = 3000 → result.length = 2500) ∧
    (tickets.length ≤ SMARTSHEET_MAX_DASHBOARD_ROW_COUNT →
      List.Perm result tickets) := by
  simp only [get_quarterly_servicenow_tickets, hparse, Option.bind_eq_bind,
    Option.some_bind] at hrun
  have hsort : ((tickets.mergeSort openedLe).reverse).Pairwise
      (fun a b => openedLe b a = true) := by
    rw [List.pairwise_reverse]
    exact List.sorted_mergeSort openedLe_trans openedLe_total tickets
  have hperm : List.Perm (tickets.mergeSort openedLe).reverse tickets :=
    (List.reverse_perm _).trans (List.mergeSort_perm tickets openedLe)
  have hlen : ((tickets.mergeSort openedLe).reverse).length = tickets.length :=
    hperm.length_eq
  have hdesc : ∀ l' : List ServiceNowTicket,
      l'.Pairwise (fun a b => openedLe b a = true) →
      l'.Pairwise (fun a b => snTotalSeconds b.opened_at ≤ snTotalSeconds a.opened_at) := by
    intro l' h
    exact h.imp (by
      intro a b hab
      simpa [openedLe, decide_eq_true_eq] using hab)
  split at hrun
  · next hbig =>
    injection hrun with hres
    subst hres
    refine ⟨hdesc _ (hsort.sublist (List.take_sublist _ _)), ?_, ?_, ?_⟩
    · rw [List.length_take, hlen]
      simp only [SMARTSHEET_MAX_DASHBOARD_ROW_COUNT] at hbig ⊢
      omega
    · intro h3000
      rw [List.length_take, hlen, h3000]
      simp [SMARTSHEET_MAX_DASHBOARD_ROW_COUNT]
    · intro hsmall
      rw [hlen] at hbig
      omega
  · next hsmall =>
    injection hrun with hres
    subst hres
    refine ⟨hdesc _ hsort, ?_, ?_, fun _ => hperm⟩
    · rw [hlen]
      rw [hlen] at hsmall
      omega
    · intro h3000
      rw [hlen] at hsmall
      simp only [SMARTSHEET_MAX_DASHBOARD_ROW_COUNT] at hsmall
      omega

/-- Witness for C4 on a one-incident input. -/
theorem C4_ticket_truncation_witness :
    List.Pairwise
      (fun a b : ServiceNowTicket =>
        snTotalSeconds b.opened_at ≤ snTotalSeconds a.opened_at) [c4Ticket] ∧
    [c4Ticket].length = min 1 SMARTSHEET_MAX_DASHBOARD_ROW_COUNT := by
  have hparse : ([c4RawTicket] ++ [] ++ []).mapM mkTicketFromRaw = some [c4Ticket] := rfl
  have hrun : get_quarterly_servicenow_tickets [c4RawTicket] [] [] = some [c4Ticket] := by
    simp only [get_quarterly_servicenow_tickets, Option.bind_eq_bind]
    rw [hparse]
    simp [List.mergeSort_singleton, SMARTSHEET_MAX_DASHBOARD_ROW_COUNT]
  have h := C4_ticket_truncation [c4RawTicket] [] [] [c4Ticket] [c4Ticket] hparse hrun
  exact ⟨h.1, h.2.1⟩

/-- Structure of the row-id chunks: they concatenate back to the input,
their sizes follow `chunkLengths` of the input length, and none exceeds the
deletion limit. -/
theorem rowIdChunks_props (l : List Nat) :
    (rowIdChunks l).flatten = l ∧
    (rowIdChunks l).map List.length = chunkLengths l.length ∧
    (∀ c ∈ rowIdChunks l, c.length ≤ SMARTSHEET_MAX_ROW_DELETION) := by
  suffices H : ∀ n (l : List Nat), l.length ≤ n →
      (rowIdChunks l).flatten = l ∧
      (rowIdChunks l).map List.length = chunkLengths l.length ∧
      (∀ c ∈ rowIdChunks l, c.length ≤ SMARTSHEET_MAX_ROW_DELETION) by
    exact H l.length l le_rfl
  intro n
  induction n with
  | zero =>
    intro l hl
    have hnil : l = [] := List.length_eq_zero.mp (Nat.le_zero.mp hl)
    subst hnil
    rw [rowIdChunks]
    simp [chunkLengths]
  | succ n ih =>
    intro l hl
    by_cases hnil : l = []
    · subst hnil
      rw [rowIdChunks]
      simp [chunkLengths]
    · have hpos : l.length ≠ 0 := fun h => hnil (List.length_eq_zero.mp h)
      have hdrop : (l.drop SMARTSHEET_MAX_ROW_DELETION).length ≤ n := by
        simp only [List.length_drop, SMARTSHEET_MAX_ROW_DELETION]
        omega
      obtain ⟨ihf, ihm, ihb⟩ := ih _ hdrop
      rw [rowIdChunks, if_neg hnil]
      refine ⟨?_, ?_, ?_⟩
      · rw [List.flatten_cons, ihf, List.take_append_drop]
      · rw [List.map_cons, ihm, List.length_take, List.length_drop]
        conv_rhs => rw [chunkLengths]
        rw [if_neg hpos]
      · intro c hc
        rcases List.mem_cons.mp hc with hc | hc
        · subst hc
          rw [List.length_take]
          exact Nat.min_le_left _ _
        · exact ihb c hc

/-- C6: `clear_smartsheet` (and `delete_smartsheet_rows`) issues delete
calls in order in chunks of at most 100 row ids covering exactly the input;
250 row ids produce exactly 3 calls of sizes 100, 100 and 50, and an empty
sheet produces zero calls. -/
theorem C6_chunked_deletion (ids : List Nat) :
    (∀ c ∈ clear_smartsheet ids, c.length ≤ SMARTSHEET_MAX_ROW_DELETION) ∧
    (clear_smartsheet ids).flatten = ids ∧
    (ids.length = 250 →
      (clear_smartsheet ids).map List.length = [100, 100, 50]) ∧
    (ids = [] → clear_smartsheet ids = []) ∧
    delete_smartsheet_rows ids = clear_smartsheet ids := by
  obtain ⟨hf, hm, hb⟩ := rowIdChunks_props ids
  unfold clear_smartsheet delete_smartsheet_rows
  by_cases h0 : ids.length = 0
  · have hnil : ids = [] := List.length_eq_zero.mp h0
    subst hnil
    simp
  · rw [if_neg h0]
    refine ⟨hb, hf, ?_, ?_, rfl⟩
    · intro h250
      rw [hm, h250]
      simp [chunkLengths, SMARTSHEET_MAX_ROW_DELETION]
    · intro hnil
      subst hnil
      simp at h0

/-- Witness for C6: 250 row ids produce delete calls of sizes 100, 100, 50. -/
theorem C6_chunked_deletion_witness :
    (clear_smartsheet (List.range 250)).map List.length = [100, 100, 50] :=
  (C6_chunked_deletion (List.range 250)).2.2.1 (by simp)

/-- The chunk loop issues exactly one delete call per chunk, in order,
whatever the per-call results are. -/
theorem clearChunkLoop_calls (callResult : List Nat → Bool) :
    ∀ chunks, (clearChunkLoop callResult chunks).filterMap deleteCallChunk = chunks := by
  intro chunks
  induction chunks with
  | nil => rfl
  | cons chunk rest ih =>
    rw [clearChunkLoop]
    split
    · simp [deleteCallChunk, ih]
    · simp [deleteCallChunk, ih]

/-- A chunk whose delete call fails is error-logged by the loop. -/
theorem clearChunkLoop_errors (callResult : List Nat → Bool) :
    ∀ chunks c, c ∈ chunks → callResult c = false →
      SheetEvent.errorLog c ∈ clearChunkLoop callResult chunks := by
  intro chunks
  induction chunks with
  | nil => intro c hc; cases hc
  | cons chunk rest ih =>
    intro c hc hfail
    rcases List.mem_cons.mp hc with hc | hc
    · subst hc
      rw [clearChunkLoop, if_neg (by rw [hfail]; exact Bool.false_ne_true)]
      exact List.mem_cons_of_mem _ (List.mem_cons_self _ _)
    · rw [clearChunkLoop]
      split
      · exact List.mem_cons_of_mem _ (ih c hc hfail)
      · exact List.mem_cons_of_mem _ (List.mem_cons_of_mem _ (ih c hc hfail))

/-- C7: whatever the per-chunk delete results are, `clear_smartsheet`
issues each chunk's delete call exactly once, in chunk order (the delete
calls of its event trace are exactly its chunk list, independent of the
results), and every failed chunk is error-logged and followed by the
remaining chunks rather than retried. -/
theorem C7_failed_chunk_no_retry (ids : List Nat) (callResult : List Nat → Bool) :
    (clearSmartsheetEvents ids callResult).filterMap deleteCallChunk =
      clear_smartsheet ids ∧
    (∀ c ∈ rowIdChunks ids, callResult c = false →
      SheetEvent.errorLog c ∈ clearSmartsheetEvents ids callResult) := by
  unfold clearSmartsheetEvents clear_smartsheet
  by_cases h0 : ids.length = 0
  · have hnil : ids = [] := List.length_eq_zero.mp h0
    subst hnil
    rw [rowIdChunks]
    simp
  · rw [if_neg h0, if_neg h0]
    exact ⟨clearChunkLoop_calls callResult (rowIdChunks ids),
      fun c hc hfail => clearChunkLoop_errors callResult (rowIdChunks ids) c hc hfail⟩

/-- Witness for C7: with two row ids and an always-failing delete endpoint,
the single failed chunk is error-logged (and, per the theorem, never
re-issued). -/
theorem C7_failed_chunk_no_retry_witness :
    SheetEvent.errorLog [1, 2] ∈ clearSmartsheetEvents [1, 2] (fun _ => false) :=
  (C7_failed_chunk_no_retry [1, 2] (fun _ => false)).2 [1, 2]
    (by rw [rowIdChunks]; simp [SMARTSHEET_MAX_ROW_DELETION]) rfl

/-- C8: the fetch loop resolves each instance independently — the issued
requests are exactly the per-instance builds, in order — and the
resolution maps the first sentinel to the first shared default
endpoint/key pair, the second sentinel to the second pair, and any other
url literally with the instance's own api key. -/
theorem C8_prtg_sentinel_resolution (env : PrtgEnv) (instances : List PrtgInstance) :
    prtgQueriesIssued env instances = instances.map (buildPrtgQuery env) ∧
    (∀ inst : PrtgInstance, inst.url = PRTG_01_USE_DEFAULTS_KEYWORD →
      resolvePrtgInstance env inst = (env.prtg01Url ++ "/api/table.xml", env.prtg01ApiKey)) ∧
    (∀ inst : PrtgInstance, inst.url = PRTG_02_USE_DEFAULTS_KEYWORD →
      resolvePrtgInstance env inst = (env.prtg02Url ++ "/api/table.xml", env.prtg02ApiKey)) ∧
    (∀ inst : PrtgInstance, inst.url ≠ PRTG_01_USE_DEFAULTS_KEYWORD →
      inst.url ≠ PRTG_02_USE_DEFAULTS_KEYWORD →
      resolvePrtgInstance env inst = (inst.url ++ "/api/table.xml", inst.api_key)) := by
  refine ⟨?_, ?_, ?_, ?_⟩
  · induction instances with
    | nil => rfl
    | cons inst rest ih => rw [prtgQueriesIssued, List.map_cons, ih]
  · intro inst h1
    rw [resolvePrtgInstance, if_pos h1]
  · intro inst h2
    have h1 : inst.url ≠ PRTG_01_USE_DEFAULTS_KEYWORD := by
      rw [h2]
      decide
    rw [resolvePrtgInstance, if_neg h1, if_pos h2]
  · intro inst h1 h2
    rw [resolvePrtgInstance, if_neg h1, if_neg h2]

/-- Witness for C8: a list carrying both sentinels resolves each instance
to its own shared default pair. -/
theorem C8_prtg_sentinel_resolution_witness :
    resolvePrtgInstance c8Env c8Inst1 = ("https://prtg01" ++ "/api/table.xml", "key1") ∧
    resolvePrtgInstance c8Env c8Inst2 = ("https://prtg02" ++ "/api/table.xml", "key2") ∧
    prtgQueriesIssued c8Env [c8Inst1, c8Inst2] =
      [c8Inst1, c8Inst2].map (buildPrtgQuery c8Env) :=
  ⟨(C8_prtg_sentinel_resolution c8Env []).2.1 c8Inst1 rfl,
   (C8_prtg_sentinel_resolution c8Env []).2.2.1 c8Inst2 rfl,
   (C8_prtg_sentinel_resolution c8Env [c8Inst1, c8Inst2]).1⟩

/-- String concatenation is associative. -/
theorem string_append_assoc (a b c : String) : a ++ b ++ c = a ++ (b ++ c) := by
  apply String.ext
  simp

/-- Joining raw tags with `'" OR "'` between two outer quotes equals
joining the quoted tags with `" OR "`. -/
theorem quote_join (tags : List String) (h : tags ≠ []) :
    "\"" ++ pyJoin "\" OR \"" tags ++ "\"" = pyJoin " OR " (tags.map quoteTag) := by
  induction tags with
  | nil => exact absurd rfl h
  | cons t rest ih =>
    cases rest with
    | nil => rfl
    | cons t2 rest2 =>
      have ih' := ih (by simp)
      show "\"" ++ (t ++ "\" OR \"" ++ pyJoin "\" OR \"" (t2 :: rest2)) ++ "\"" =
        quoteTag t ++ " OR " ++ pyJoin " OR " ((t2 :: rest2).map quoteTag)
      rw [← ih', quoteTag]
      apply String.ext
      have hlit : ("\" OR \"" : String).data =
          ("\"" : String).data ++ (" OR " : String).data ++ ("\"" : String).data := rfl
      simp [hlit]

/-- Each quoted tag occurs inside the `" OR "`-join of the quoted tags. -/
theorem quote_mem_infix (tags : List String) (t : String) (ht : t ∈ tags) :
    (quoteTag t).data <:+: (pyJoin " OR " (tags.map quoteTag)).data := by
  induction tags with
  | nil => cases ht
  | cons t1 rest ih =>
    rcases List.mem_cons.mp ht with hh | hh
    · subst hh
      cases rest with
      | nil => exact List.infix_rfl
      | cons t2 rest2 =>
        show (quoteTag t).data <:+:
          (quoteTag t ++ " OR " ++ pyJoin " OR " ((t2 :: rest2).map quoteTag)).data
        refine ⟨[], (" OR " : String).data ++
          (pyJoin " OR " ((t2 :: rest2).map quoteTag)).data, ?_⟩
        simp
    · cases rest with
      | nil => cases hh
      | cons t2 rest2 =>
        obtain ⟨u, v, huv⟩ := ih hh
        refine ⟨(quoteTag t1 ++ " OR ").data ++ u, v, ?_⟩
        show _ = (quoteTag t1 ++ " OR " ++ pyJoin " OR " ((t2 :: rest2).map quoteTag)).data
        simp only [String.data_append]
        rw [← huv]
        simp

/-- C9: for a non-empty tag list the built query is the `createdAt`
clause, the `dd-mm-yyyy`-formatted cutoff, and the tag clause holding each
tag enclosed in double quotes joined by `" OR "`; in particular each
quoted tag occurs inside the query string. -/
theorem C9_query_format (cutoff : SimpleDate) (tags : List String) (h : tags ≠ []) :
    buildOpsgenieQuery cutoff tags =
      "createdAt >= " ++ strftimeDDMMYYYY cutoff ++ " tag: (" ++
        pyJoin " OR " (tags.map quoteTag) ++ ")" ∧
    (∀ t ∈ tags, (quoteTag t).data <:+: (buildOpsgenieQuery cutoff tags).data) ∧
    strftimeDDMMYYYY cutoff =
      pad2 cutoff.day ++ "-" ++ pad2 cutoff.month ++ "-" ++ pad4 cutoff.year := by
  have h1 : buildOpsgenieQuery cutoff tags =
      "createdAt >= " ++ strftimeDDMMYYYY cutoff ++ " tag: (" ++
        pyJoin " OR " (tags.map quoteTag) ++ ")" := by
    rw [buildOpsgenieQuery, ← quote_join tags h]
    apply String.ext
    have hlit1 : (" tag: (\"" : String).data =
        (" tag: (" : String).data ++ ("\"" : String).data := rfl
    have hlit2 : ("\")" : String).data =
        ("\"" : String).data ++ (")" : String).data := rfl
    simp [hlit1, hlit2]
  refine ⟨h1, ?_, rfl⟩
  intro t ht
  rw [h1]
  obtain ⟨u, v, huv⟩ := quote_mem_infix tags t ht
  refine ⟨("createdAt >= " ++ strftimeDDMMYYYY cutoff ++ " tag: (" : String).data ++ u,
    v ++ ((")" : String).data), ?_⟩
  rw [show (("createdAt >= " ++ strftimeDDMMYYYY cutoff ++ " tag: (" : String).data ++ u) ++
      (quoteTag t).data ++ (v ++ ((")" : String).data)) =
      ("createdAt >= " ++ strftimeDDMMYYYY cutoff ++ " tag: (" : String).data ++
        (u ++ (quoteTag t).data ++ v) ++ ((")" : String).data) by
    simp]
  rw [huv]
  simp

/-- Witness for C9: two tags produce the expected fully concrete query. -/
theorem C9_query_format_witness :
    buildOpsgenieQuery ⟨1, 2, 2024⟩ ["t1", "t2"] =
      "createdAt >= " ++ strftimeDDMMYYYY ⟨1, 2, 2024⟩ ++ " tag: (" ++
        pyJoin " OR " (["t1", "t2"].map quoteTag) ++ ")" ∧
    buildOpsgenieQuery ⟨1, 2, 2024⟩ ["t1", "t2"] =
      "createdAt >= 01-02-2024 tag: (\"t1\" OR \"t2\")" :=
  ⟨(C9_query_format ⟨1, 2, 2024⟩ ["t1", "t2"] (by simp)).1, by decide⟩

/-- Every category produced by the priority chain is a nonempty string. -/
theorem matchTag_ne_empty {tag : PyStr} {c : String} (h : matchTag tag = some c) :
    c ≠ "" := by
  unfold matchTag at h
  rw [Option.map_eq_some'] at h
  obtain ⟨pr, hf, h2⟩ := h
  have hmem := List.mem_of_find?_eq_some hf
  have hall : ∀ p ∈ TAG_PRIORITY, p.2 ≠ "" := by decide
  rw [← h2]
  exact hall pr hmem

/-- The category produced by the scan loop is a nonempty string. -/
theorem scanTags_ne_empty {l : List PyStr} {c : String} (h : scanTags l = some c) :
    c ≠ "" := by
  induction l with
  | nil => simp [scanTags] at h
  | cons tag rest ih =>
    rw [scanTags] at h
    cases hm : matchTag tag with
    | none => rw [hm] at h; exact ih h
    | some c2 =>
      rw [hm] at h
      simp only [Option.some.injEq] at h
      rw [← h]
      exact matchTag_ne_empty hm

/-- C1: `determine_primary_opsgenie_tag` lower-cases all tags, defaults to
"Catch-all" when a tag equals "catchall", lets the first substring match of
the priority scan override that default, falls back to "Misc." when neither
applies, and maps the four example inputs as the specification states. -/
theorem C1_tag_classification (tags : List PyStr) :
    (∀ c, scanTags (tags.map lowerStr) = some c →
      determine_primary_opsgenie_tag tags = c) ∧
    (scanTags (tags.map lowerStr) = none →
      (tags.map lowerStr).contains (enc "catchall") = true →
      determine_primary_opsgenie_tag tags = "Catch-all") ∧
    (scanTags (tags.map lowerStr) = none →
      (tags.map lowerStr).contains (enc "catchall") = false →
      determine_primary_opsgenie_tag tags = "Misc.") ∧
    determine_primary_opsgenie_tag [enc "VCENTERS-prod"] = "vCenter" ∧
    determine_primary_opsgenie_tag [enc "catchall"] = "Catch-all" ∧
    determine_primary_opsgenie_tag [enc "catchall", enc "server-east"] = "Server" ∧
    determine_primary_opsgenie_tag [enc "unknown-tag"] = "Misc." := by
  refine ⟨?_, ?_, ?_, by decide, by decide, by decide, by decide⟩
  · intro c h
    have hc := scanTags_ne_empty h
    simp [determine_primary_opsgenie_tag, h, hc]
  · intro hscan hcatch
    simp only [determine_primary_opsgenie_tag, hscan, hcatch]
    decide
  · intro hscan hcatch
    simp only [determine_primary_opsgenie_tag, hscan, hcatch]
    decide

/-- Witness for C1 at a concrete input: the scan loop matches "vcenters"
inside "VCENTERS-prod" and the override conjunct yields "vCenter". -/
theorem C1_tag_classification_witness :
    determine_primary_opsgenie_tag [enc "VCENTERS-prod"] = "vCenter" :=
  (C1_tag_classification [enc "VCENTERS-prod"]).1 "vCenter" (by decide)

/-- Lower-casing a code point twice equals lower-casing it once. -/
theorem lowerCp_idem (n : Nat) : lowerCp (lowerCp n) = lowerCp n := by
  unfold lowerCp
  split_ifs <;> omega

/-- Lower-casing a string twice equals lower-casing it once. -/
theorem lowerStr_idem (s : PyStr) : lowerStr (lowerStr s) = lowerStr s := by
  unfold lowerStr
  rw [List.map_map]
  exact List.map_congr_left (fun n _ => lowerCp_idem n)

/-- C10: the tag classifier is case-insensitive — it returns the same
primary tag for a tag list and for its element-wise lower-cased form. -/
theorem C10_lowercase_invariant (tags : List PyStr) :
    determine_primary_opsgenie_tag (tags.map lowerStr) =
      determine_primary_opsgenie_tag tags := by
  have hmm : List.map lowerStr (List.map lowerStr tags) = List.map lowerStr tags := by
    rw [List.map_map]
    exact List.map_congr_left (fun s _ => lowerStr_idem s)
  simp only [determine_primary_opsgenie_tag]
  rw [hmm]

end QBR
